import Mathlib

/-!
# Verification of the resilient PDF processing pipeline

A shallow embedding of `src/pdf_context_narrator/processor.py`: the
checkpoint/resume state machine of `PDFProcessor` (`process_pdf`,
`_process_streaming`, `_process_with_multiprocessing`, `_stream_pages`,
`_process_page`, `_get_checkpoint_path`, `_save_checkpoint`,
`_load_checkpoint`, `_clear_checkpoint`).

Modelling decisions, all traceable to the source:

* A page of an open document is either extractable text (`extract_text()`
  returning an optional string) or an exception raised during extraction.
* The checkpoint directory is a pure key/value store keyed by the checkpoint
  file path string; `pickle.dump`/`pickle.load`/`unlink` become update,
  lookup and removal.  I/O never fails in the model (the source swallows
  save/clear failures and treats load failures as absence, so successful I/O
  is the behaviour all claims quantify over).
* `self._interrupted` is written only by the signal handler (which sets it to
  `True`) and is read at four program points: `_stream_pages` line 118 (once
  per page, before yielding), the loop body (line 261 / 310), `process_pdf`
  line 241 (clear decision) and line 250 (the `completed` field).  The model
  threads a poll counter `t` and reads the flag's value at the `t`-th read
  from a schedule `intr : Nat → Bool`; an asynchronous sticky flag realises
  exactly the monotone schedules.
* The per-document page loop `for page_num in range(start_page, total_pages)`
  runs at most `total_pages - start_page` iterations; the embedding recurses
  structurally on that fuel, carrying `page_num` explicitly.
-/

namespace PDFScanner

/-- A page handle of an opened document, as seen by `_process_page`:
`extract_text()` either returns an optional string or raises. -/
inductive PageContent where
  | ok (txt : Option String)
  | exn (msg : String)
  deriving Repr, DecidableEq, Inhabited

/-- One per-page result dict produced by `_process_page`: either the success
record `{page_number, text_length, has_text, text_preview}` or the error
record `{page_number, error}`. -/
inductive PageResult where
  | ok (page_number : Nat) (text_length : Nat) (has_text : Bool) (text_preview : String)
  | err (page_number : Nat) (error : String)
  deriving Repr, DecidableEq, Inhabited

/-- The `page_number` field, present in both result shapes. -/
def PageResult.page_number : PageResult → Nat
  | .ok n _ _ _ => n
  | .err n _ => n

/-- Whether the result dict carries an `error` field. -/
def PageResult.hasError : PageResult → Bool
  | .ok _ _ _ _ => false
  | .err _ _ => true

/-- `_process_page` (processor.py lines 125-147): extract text, build the
result record; a raised extraction error is caught and turned into an
error-tagged record for that page.  `text[:200] if text else ""` and
`bool(text.strip())` are modelled at the character-list level. -/
def processPage (page_num : Nat) (page : PageContent) : PageResult :=
  match page with
  | PageContent.ok txt =>
      let text := txt.getD ""
      PageResult.ok (page_num + 1) text.data.length
        (text.data.any (fun c => !c.isWhitespace))
        (if text.data.isEmpty then "" else String.mk (text.data.take 200))
  | PageContent.exn msg => PageResult.err (page_num + 1) msg

/-- A filesystem path as `pathlib.Path` presents it: a parent part and a
final component `name`. -/
structure PdfPath where
  parent : String
  name : String
  deriving Repr, DecidableEq, Inhabited

/-- Python's `str.replace` on character lists: replace every non-overlapping
occurrence of `pat`, scanning left to right.  The fuel argument is the
length of the remaining input (each step consumes at least one character
when `pat` is nonempty). -/
def replaceAux (pat rep : List Char) : Nat → List Char → List Char
  | 0, l => l
  | _ + 1, [] => []
  | fuel + 1, c :: rest =>
      if !pat.isEmpty && pat.isPrefixOf (c :: rest) then
        rep ++ replaceAux pat rep fuel ((c :: rest).drop pat.length)
      else
        c :: replaceAux pat rep fuel rest

/-- Python `s.replace(pat, rep)` for nonempty `pat`. -/
def pyReplace (s pat rep : String) : String :=
  String.mk (replaceAux pat.data rep.data s.data.length s.data)

/-- `_get_checkpoint_path` (lines 65-68):
`safe_name = pdf_path.name.replace(".pdf", "").replace("/", "_")`, then
`checkpoint_dir / f"{safe_name}_checkpoint.pkl"`. -/
def getCheckpointPath (checkpoint_dir : String) (pdf_path : PdfPath) : String :=
  let safe_name := pyReplace (pyReplace pdf_path.name ".pdf" "") "/" "_"
  checkpoint_dir ++ "/" ++ safe_name ++ "_checkpoint.pkl"

/-- `CheckpointState` (lines 22-31).  `pdf_path` keeps the structured path
(`str(pdf_path)` round-trips through `Path`); `metadata` is the small
string map the source stores. -/
structure CheckpointState where
  pdf_path : PdfPath
  total_pages : Nat
  processed_pages : Nat
  checkpoint_batch : Nat
  results : List PageResult
  metadata : List (String × String)
  deriving Repr, DecidableEq, Inhabited

/-- `ProcessorConfig` (lines 34-43).  `memory_limit_mb` only drives the
log-only `_check_memory_limit` and never affects state. -/
structure ProcessorConfig where
  workers : Nat := 1
  batch_size : Nat := 10
  memory_limit_mb : Option Nat := none
  checkpoint_dir : String := "checkpoints"
  resume : Bool := false
  force : Bool := false
  deriving Repr

/-- The checkpoint directory as a store: checkpoint file path ↦ pickled
state, if the file exists. -/
def CheckpointStore := String → Option CheckpointState

/-- Writing a checkpoint file (successful `pickle.dump`). -/
def CheckpointStore.save (store : CheckpointStore) (key : String)
    (st : CheckpointState) : CheckpointStore :=
  fun k => if k = key then some st else store k

/-- Removing a checkpoint file; a no-op when absent, like `_clear_checkpoint`. -/
def CheckpointStore.clear (store : CheckpointStore) (key : String) : CheckpointStore :=
  fun k => if k = key then none else store k

/-- A checkpoint directory with no checkpoint files. -/
def emptyStore : CheckpointStore := fun _ => none

/-- `_save_checkpoint` (lines 70-80): recomputes the path from
`Path(state.pdf_path)` and writes the state there. -/
def saveCheckpoint (checkpoint_dir : String) (store : CheckpointStore)
    (st : CheckpointState) : CheckpointStore :=
  store.save (getCheckpointPath checkpoint_dir st.pdf_path) st

/-- `_load_checkpoint` (lines 82-97): absent file (and, in the source, a
corrupt file) loads as `None`. -/
def loadCheckpoint (checkpoint_dir : String) (store : CheckpointStore)
    (pdf_path : PdfPath) : Option CheckpointState :=
  store (getCheckpointPath checkpoint_dir pdf_path)

/-- A document on disk: its path, whether `pdf_path.exists()`, and what
`PdfReader(str(pdf_path))` yields — the stable page list, or a raised error.
The source opens the reader twice (probe and stream); the document being
fixed, both opens agree. -/
structure Document where
  path : PdfPath
  onDisk : Bool
  openResult : Except String (List PageContent)

/-- The dict returned by `process_pdf` (lines 245-251). -/
structure RunSummary where
  metadata : List (String × String)
  total_pages : Nat
  processed_pages : Nat
  results : List PageResult
  completed : Bool
  deriving Repr, DecidableEq, Inhabited

/-- What a run leaves behind: either the summary dict together with the
final checkpoint store, or a raised exception with the store at raise time.
`saved` records every `CheckpointState` passed to `_save_checkpoint`
during the run, in order. -/
inductive RunResult where
  | ok (summary : RunSummary) (store : CheckpointStore) (saved : List CheckpointState)
  | raised (msg : String) (store : CheckpointStore)

/-- Summary of a non-raising run (`default` for a raising one). -/
def RunResult.summaryD : RunResult → RunSummary
  | .ok s _ _ => s
  | .raised _ _ => default

/-- The checkpoint store when the run ends (normally or by raising). -/
def RunResult.storeD : RunResult → CheckpointStore
  | .ok _ store _ => store
  | .raised _ store => store

/-- The trace of states passed to `_save_checkpoint` (empty for a raising
run: both raise sites precede any save). -/
def RunResult.savedD : RunResult → List CheckpointState
  | .ok _ _ saved => saved
  | .raised _ _ => []

/-- Raised-or-returned view of a run, for comparing execution paths. -/
def RunResult.outcome : RunResult → Except String RunSummary
  | .ok s _ _ => Except.ok s
  | .raised m _ => Except.error m

/-- What a page loop produces: the list returned to `process_pdf`, the
store, the poll counter after the loop, and the save trace. -/
structure LoopOut where
  results : List PageResult
  store : CheckpointStore
  polls : Nat
  saved : List CheckpointState

/-- `_process_streaming` (lines 253-298) fused with the generator
`_stream_pages` (lines 109-123), one fuel step per `page_num` in
`range(page_num, total)`:

* generator poll (line 118): flag set → the stream ends, the loop falls
  through to `results.extend(batch_results)` — **no checkpoint saved**;
* body poll (line 261): flag set → save the interrupt checkpoint
  (`processed_pages = page_num`, `results = results + batch_results`,
  `checkpoint_batch = len(results) // batch_size`) and break;
* otherwise `_process_page`, append to `batch_results`; once
  `len(batch_results) >= batch_size`, flush into `results` and save the
  boundary checkpoint (`processed_pages = page_num + 1`). -/
def streamLoop (B : Nat) (dir : String) (pdf_path : PdfPath)
    (pages : List PageContent) (total : Nat) (intr : Nat → Bool) :
    Nat → Nat → Nat → List PageResult → List PageResult → CheckpointStore →
    List CheckpointState → LoopOut
  | 0, _, t, results, batch, store, saved =>
      { results := results ++ batch, store := store, polls := t, saved := saved }
  | fuel + 1, page_num, t, results, batch, store, saved =>
      if intr t then
        { results := results ++ batch, store := store, polls := t + 1, saved := saved }
      else if intr (t + 1) then
        let st : CheckpointState :=
          { pdf_path := pdf_path, total_pages := total, processed_pages := page_num,
            checkpoint_batch := results.length / B,
            results := results ++ batch,
            metadata := [("pdf_name", pdf_path.name)] }
        { results := results ++ batch, store := saveCheckpoint dir store st,
          polls := t + 2, saved := saved ++ [st] }
      else
        let r := processPage page_num (pages.getD page_num default)
        let batch2 := batch ++ [r]
        if B ≤ batch2.length then
          let results2 := results ++ batch2
          let st : CheckpointState :=
            { pdf_path := pdf_path, total_pages := total, processed_pages := page_num + 1,
              checkpoint_batch := results2.length / B,
              results := results2,
              metadata := [("pdf_name", pdf_path.name)] }
          streamLoop B dir pdf_path pages total intr fuel (page_num + 1) (t + 2)
            results2 [] (saveCheckpoint dir store st) (saved ++ [st])
        else
          streamLoop B dir pdf_path pages total intr fuel (page_num + 1) (t + 2)
            results batch2 store saved

/-- `_process_with_multiprocessing` (lines 300-343), fused with
`_stream_pages` the same way.  It appends each result straight to
`results`, checkpoints when `len(results) % batch_size == 0`, and on an
interrupt observed in the body saves `results` as they stand with
`processed_pages = page_num`. -/
def mpLoop (B : Nat) (dir : String) (pdf_path : PdfPath)
    (pages : List PageContent) (total : Nat) (intr : Nat → Bool) :
    Nat → Nat → Nat → List PageResult → CheckpointStore →
    List CheckpointState → LoopOut
  | 0, _, t, results, store, saved =>
      { results := results, store := store, polls := t, saved := saved }
  | fuel + 1, page_num, t, results, store, saved =>
      if intr t then
        { results := results, store := store, polls := t + 1, saved := saved }
      else if intr (t + 1) then
        let st : CheckpointState :=
          { pdf_path := pdf_path, total_pages := total, processed_pages := page_num,
            checkpoint_batch := results.length / B,
            results := results,
            metadata := [("pdf_name", pdf_path.name)] }
        { results := results, store := saveCheckpoint dir store st,
          polls := t + 2, saved := saved ++ [st] }
      else
        let r := processPage page_num (pages.getD page_num default)
        let results2 := results ++ [r]
        if results2.length % B == 0 then
          let st : CheckpointState :=
            { pdf_path := pdf_path, total_pages := total, processed_pages := page_num + 1,
              checkpoint_batch := results2.length / B,
              results := results2,
              metadata := [("pdf_name", pdf_path.name)] }
          mpLoop B dir pdf_path pages total intr fuel (page_num + 1) (t + 2)
            results2 (saveCheckpoint dir store st) (saved ++ [st])
        else
          mpLoop B dir pdf_path pages total intr fuel (page_num + 1) (t + 2)
            results2 store saved

/-- `process_pdf` (lines 174-251):

1. `pdf_path.exists()` or raise `FileNotFoundError`;
2. load the checkpoint iff `resume and not force`;
3. resume `(start_page, results, metadata)` from it, or start fresh;
4. probe `PdfReader` for `total_pages`, raising on failure;
5. run the worker loop (`workers > 1` picks `_process_with_multiprocessing`,
   which in the source is a single-process fallback);
6. read the flag (line 241): if clear, delete the checkpoint file;
7. read the flag again (line 250) for the `completed` field;
   `processed_pages` is `len(results)`. -/
def processPdf (cfg : ProcessorConfig) (doc : Document) (intr : Nat → Bool)
    (store : CheckpointStore) : RunResult :=
  if !doc.onDisk then
    RunResult.raised ("PDF file not found: " ++ doc.path.parent ++ "/" ++ doc.path.name) store
  else
    let state? : Option CheckpointState :=
      if cfg.resume && !cfg.force then loadCheckpoint cfg.checkpoint_dir store doc.path
      else none
    let start_page := match state? with
      | some st => st.processed_pages
      | none => 0
    let results0 := match state? with
      | some st => st.results
      | none => []
    let metadata := match state? with
      | some st => st.metadata
      | none => [("pdf_path", doc.path.parent ++ "/" ++ doc.path.name),
                 ("pdf_name", doc.path.name)]
    match doc.openResult with
    | Except.error e => RunResult.raised e store
    | Except.ok pages =>
        let total := pages.length
        let out :=
          if 1 < cfg.workers then
            mpLoop cfg.batch_size cfg.checkpoint_dir doc.path pages total intr
              (total - start_page) start_page 0 [] store []
          else
            streamLoop cfg.batch_size cfg.checkpoint_dir doc.path pages total intr
              (total - start_page) start_page 0 [] [] store []
        let results := results0 ++ out.results
        let store2 :=
          if !intr out.polls then
            out.store.clear (getCheckpointPath cfg.checkpoint_dir doc.path)
          else out.store
        RunResult.ok
          { metadata := metadata, total_pages := total,
            processed_pages := results.length, results := results,
            completed := !intr (out.polls + 1) }
          store2 out.saved

/-- The results an uninterrupted traversal produces for page indexes
`a, a+1, …, a+n-1`. -/
def freshResults (pages : List PageContent) (a n : Nat) : List PageResult :=
  (List.range' a n).map (fun i => processPage i (pages.getD i default))

/-- The all-false schedule: no signal ever arrives. -/
def noIntr : Nat → Bool := fun _ => false

/-- The flag as observed when the signal arrives just before the `k`-th
poll: false before, true from then on (monotone, as a sticky flag is). -/
def intrFrom (k : Nat) : Nat → Bool := fun u => decide (k ≤ u)

/-! Concrete documents, configurations and stores at which the model is
evaluated. -/

/-- A three-page document whose pages extract "a", "b", "c". -/
def docC2 : Document :=
  { path := { parent := "pdfs", name := "doc.pdf" }, onDisk := true,
    openResult := Except.ok [PageContent.ok (some "a"), PageContent.ok (some "b"),
      PageContent.ok (some "c")] }

def cfgC2 : ProcessorConfig := { workers := 1, batch_size := 10 }

def pathC3 : PdfPath := { parent := "pdfs", name := "doc.pdf" }

/-- A thirty-page document, every page extracting "t". -/
def docC3 : Document :=
  { path := pathC3, onDisk := true,
    openResult := Except.ok (List.replicate 30 (PageContent.ok (some "t"))) }

/-- A checkpoint seeded as after 15 of 30 pages, holding 15 results. -/
def seededC3 : CheckpointState :=
  { pdf_path := pathC3, total_pages := 30, processed_pages := 15, checkpoint_batch := 1,
    results := List.replicate 15 (PageResult.ok 0 0 false ""),
    metadata := [("pdf_name", "doc.pdf")] }

def storeC3 : CheckpointStore :=
  CheckpointStore.save emptyStore (getCheckpointPath "checkpoints" pathC3) seededC3

def cfgC3 : ProcessorConfig :=
  { workers := 1, batch_size := 10, resume := true, force := false }

/-- A three-page document: text, an empty page, a raising page. -/
def docW1 : Document :=
  { path := { parent := "pdfs", name := "w1.pdf" }, onDisk := true,
    openResult := Except.ok [PageContent.ok (some "alpha"), PageContent.ok none,
      PageContent.exn "boom"] }

def cfgW1 : ProcessorConfig := { workers := 1, batch_size := 2 }

def pathW4 : PdfPath := { parent := "pdfs", name := "w4.pdf" }

def docW4 : Document :=
  { path := pathW4, onDisk := true,
    openResult := Except.ok (List.replicate 30 (PageContent.ok (some "x"))) }

def ckW4 : CheckpointState :=
  { pdf_path := pathW4, total_pages := 30, processed_pages := 15, checkpoint_batch := 1,
    results := List.replicate 15 (PageResult.ok 9 9 true "seeded"),
    metadata := [("pdf_name", "w4.pdf")] }

def storeW4 : CheckpointStore :=
  CheckpointStore.save emptyStore (getCheckpointPath "checkpoints" pathW4) ckW4

def cfgW4 : ProcessorConfig :=
  { workers := 1, batch_size := 10, resume := true, force := false }

def pathW6 : PdfPath := { parent := "pdfs", name := "w6.pdf" }

def docW6 : Document :=
  { path := pathW6, onDisk := true,
    openResult := Except.ok (List.replicate 30 (PageContent.ok (some "y"))) }

def ckW6 : CheckpointState :=
  { pdf_path := pathW6, total_pages := 30, processed_pages := 15, checkpoint_batch := 1,
    results := List.replicate 15 (PageResult.ok 9 9 true "stale"),
    metadata := [("pdf_name", "w6.pdf")] }

def storeW6 : CheckpointStore :=
  CheckpointStore.save emptyStore (getCheckpointPath "checkpoints" pathW6) ckW6

def cfgW6 : ProcessorConfig :=
  { workers := 1, batch_size := 10, resume := true, force := true }

def docW7 : Document :=
  { path := { parent := "pdfs", name := "w7.pdf" }, onDisk := false,
    openResult := Except.error "not found" }

/-- A ten-page document whose seventh page (0-indexed page 6) raises. -/
def pagesW8 : List PageContent :=
  [PageContent.ok (some "p1"), PageContent.ok (some "p2"), PageContent.ok (some "p3"),
   PageContent.ok (some "p4"), PageContent.ok (some "p5"), PageContent.ok (some "p6"),
   PageContent.exn "bad page", PageContent.ok (some "p8"), PageContent.ok (some "p9"),
   PageContent.ok (some "p10")]

def docW8 : Document :=
  { path := { parent := "pdfs", name := "w8.pdf" }, onDisk := true,
    openResult := Except.ok pagesW8 }

def cfgW8 : ProcessorConfig := { workers := 1, batch_size := 3 }

def docW10 : Document :=
  { path := { parent := "pdfs", name := "w10.pdf" }, onDisk := true,
    openResult := Except.ok [PageContent.ok (some "a"), PageContent.ok (some "b")] }

def cfgW10 : ProcessorConfig := { workers := 1, batch_size := 2 }

/-- `intrFrom` schedules are monotone, so each is realisable by the sticky
`_interrupted` flag: once observed set, it stays set. -/
theorem intrFrom_monotone (k u v : Nat) (huv : u ≤ v) (hu : intrFrom k u = true) :
    intrFrom k v = true := by
  simp only [intrFrom, decide_eq_true_eq] at *
  omega

theorem processPage_page_number (i : Nat) (pg : PageContent) :
    (processPage i pg).page_number = i + 1 := by
  cases pg <;> simp [processPage, PageResult.page_number]

theorem freshResults_length (pages : List PageContent) (a n : Nat) :
    (freshResults pages a n).length = n := by
  simp [freshResults]

theorem freshResults_succ (pages : List PageContent) (a n : Nat) :
    freshResults pages a (n + 1)
      = processPage a (pages.getD a default) :: freshResults pages (a + 1) n := by
  simp [freshResults, List.range'_succ]

theorem freshResults_getElem (pages : List PageContent) (a n i : Nat)
    (h : i < (freshResults pages a n).length) :
    (freshResults pages a n).get ⟨i, h⟩
      = processPage (a + i) (pages.getD (a + i) default) := by
  have h' : i < n := by simpa [freshResults_length] using h
  simp [freshResults, List.getElem_map, List.getElem_range', h']

/-- A clear really removes the entry at the cleared key. -/
theorem CheckpointStore.clear_self (store : CheckpointStore) (key : String) :
    store.clear key key = none := by
  simp [CheckpointStore.clear]

/-- With no signal ever arriving, the streaming loop returns every buffered
result followed by the freshly processed pages `p, …, p+fuel-1`. -/
theorem streamLoop_noIntr (B : Nat) (dir : String) (path : PdfPath)
    (pages : List PageContent) (total : Nat) :
    ∀ (fuel p t : Nat) (res batch : List PageResult) (store : CheckpointStore)
      (saved : List CheckpointState),
      (streamLoop B dir path pages total noIntr fuel p t res batch store saved).results
        = res ++ (batch ++ freshResults pages p fuel) := by
  intro fuel
  induction fuel with
  | zero =>
      intro p t res batch store saved
      simp [streamLoop, freshResults]
  | succ n ih =>
      intro p t res batch store saved
      simp only [streamLoop, noIntr, Bool.false_eq_true, if_false]
      by_cases hfl : B ≤ (batch ++ [processPage p (pages.getD p default)]).length
      · rw [if_pos hfl, ih]
        simp [freshResults_succ]
      · rw [if_neg hfl, ih]
        simp [freshResults_succ]

/-- The single-process fallback `_process_with_multiprocessing` returns the
same result list and reads the flag the same number of times as
`_process_streaming`, for every interrupt schedule, whenever its `results`
accumulator equals the streaming loop's flushed results plus pending batch. -/
theorem mpLoop_streamLoop (B : Nat) (dir : String) (path : PdfPath)
    (pages : List PageContent) (total : Nat) (intr : Nat → Bool) :
    ∀ (fuel p t : Nat) (resS batch resM : List PageResult)
      (storeS storeM : CheckpointStore) (savedS savedM : List CheckpointState),
      resM = resS ++ batch →
      (mpLoop B dir path pages total intr fuel p t resM storeM savedM).results
          = (streamLoop B dir path pages total intr fuel p t resS batch storeS savedS).results
        ∧ (mpLoop B dir path pages total intr fuel p t resM storeM savedM).polls
          = (streamLoop B dir path pages total intr fuel p t resS batch storeS savedS).polls := by
  intro fuel
  induction fuel with
  | zero =>
      intro p t resS batch resM storeS storeM savedS savedM hinv
      simp [mpLoop, streamLoop, hinv]
  | succ n ih =>
      intro p t resS batch resM storeS storeM savedS savedM hinv
      simp only [mpLoop, streamLoop]
      cases h0 : intr t
      · simp only [Bool.false_eq_true, if_false]
        cases h1 : intr (t + 1)
        · simp only [Bool.false_eq_true, if_false]
          by_cases hfl : B ≤ (batch ++ [processPage p (pages.getD p default)]).length
          · rw [if_pos hfl]
            by_cases hmod : (resM ++ [processPage p (pages.getD p default)]).length % B == 0
            · rw [if_pos hmod]
              exact ih _ _ _ _ _ _ _ _ _ (by simp [hinv])
            · rw [if_neg hmod]
              exact ih _ _ _ _ _ _ _ _ _ (by simp [hinv])
          · rw [if_neg hfl]
            by_cases hmod : (resM ++ [processPage p (pages.getD p default)]).length % B == 0
            · rw [if_pos hmod]
              exact ih _ _ _ _ _ _ _ _ _ (by simp [hinv])
            · rw [if_neg hmod]
              exact ih _ _ _ _ _ _ _ _ _ (by simp [hinv])
        · simp [hinv]
      · simp [hinv]

/-- A run that never sees the flag and loads no checkpoint: the summary is
the fresh processing of every page, `completed = true`, and the checkpoint
file is absent afterwards. -/
theorem processPdf_noIntr_fresh (cfg : ProcessorConfig) (doc : Document)
    (pages : List PageContent) (store : CheckpointStore)
    (hdisk : doc.onDisk = true) (hopen : doc.openResult = Except.ok pages)
    (hstate : (if cfg.resume && !cfg.force then
        loadCheckpoint cfg.checkpoint_dir store doc.path else none) = none) :
    ∃ (store2 : CheckpointStore) (saved : List CheckpointState),
      processPdf cfg doc noIntr store = RunResult.ok
        { metadata := [("pdf_path", doc.path.parent ++ "/" ++ doc.path.name),
                       ("pdf_name", doc.path.name)],
          total_pages := pages.length,
          processed_pages := (freshResults pages 0 pages.length).length,
          results := freshResults pages 0 pages.length,
          completed := true } store2 saved ∧
      store2 (getCheckpointPath cfg.checkpoint_dir doc.path) = none := by
  unfold processPdf
  rw [hdisk, hopen, hstate]
  simp only [Bool.not_true, Bool.false_eq_true, if_false, noIntr, Bool.not_false, if_true]
  by_cases hw : 1 < cfg.workers
  · rw [if_pos hw]
    set out := mpLoop cfg.batch_size cfg.checkpoint_dir doc.path pages pages.length
      noIntr (pages.length - 0) 0 0 [] store [] with hout
    have hres : out.results = freshResults pages 0 pages.length := by
      obtain ⟨h1, -⟩ := mpLoop_streamLoop cfg.batch_size cfg.checkpoint_dir doc.path
        pages pages.length noIntr (pages.length - 0) 0 0 [] [] [] emptyStore store [] [] rfl
      rw [hout, h1, streamLoop_noIntr]
      simp
    exact ⟨out.store.clear (getCheckpointPath cfg.checkpoint_dir doc.path), out.saved,
      by simp [hres], CheckpointStore.clear_self _ _⟩
  · rw [if_neg hw]
    set out := streamLoop cfg.batch_size cfg.checkpoint_dir doc.path pages pages.length
      noIntr (pages.length - 0) 0 0 [] [] store [] with hout
    have hres : out.results = freshResults pages 0 pages.length := by
      rw [hout, streamLoop_noIntr]
      simp
    exact ⟨out.store.clear (getCheckpointPath cfg.checkpoint_dir doc.path), out.saved,
      by simp [hres], CheckpointStore.clear_self _ _⟩

/-- A run that never sees the flag, with `resume` on, `force` off and a
checkpoint on file: the summary is the checkpoint's results followed by the
fresh processing of pages `processed_pages, …, total-1`, `completed = true`,
and the checkpoint file is absent afterwards. -/
theorem processPdf_noIntr_resumed (cfg : ProcessorConfig) (doc : Document)
    (pages : List PageContent) (store : CheckpointStore) (ck : CheckpointState)
    (hdisk : doc.onDisk = true) (hopen : doc.openResult = Except.ok pages)
    (hstate : (if cfg.resume && !cfg.force then
        loadCheckpoint cfg.checkpoint_dir store doc.path else none) = some ck) :
    ∃ (store2 : CheckpointStore) (saved : List CheckpointState),
      processPdf cfg doc noIntr store = RunResult.ok
        { metadata := ck.metadata,
          total_pages := pages.length,
          processed_pages := (ck.results ++ freshResults pages ck.processed_pages
            (pages.length - ck.processed_pages)).length,
          results := ck.results ++ freshResults pages ck.processed_pages
            (pages.length - ck.processed_pages),
          completed := true } store2 saved ∧
      store2 (getCheckpointPath cfg.checkpoint_dir doc.path) = none := by
  unfold processPdf
  rw [hdisk, hopen, hstate]
  simp only [Bool.not_true, Bool.false_eq_true, if_false, noIntr, Bool.not_false, if_true]
  by_cases hw : 1 < cfg.workers
  · rw [if_pos hw]
    set out := mpLoop cfg.batch_size cfg.checkpoint_dir doc.path pages pages.length
      noIntr (pages.length - ck.processed_pages) ck.processed_pages 0 [] store []
      with hout
    have hres : out.results
        = freshResults pages ck.processed_pages (pages.length - ck.processed_pages) := by
      obtain ⟨h1, -⟩ := mpLoop_streamLoop cfg.batch_size cfg.checkpoint_dir doc.path
        pages pages.length noIntr (pages.length - ck.processed_pages)
        ck.processed_pages 0 [] [] [] emptyStore store [] [] rfl
      rw [hout, h1, streamLoop_noIntr]
      simp
    exact ⟨out.store.clear (getCheckpointPath cfg.checkpoint_dir doc.path), out.saved,
      by simp [hres], CheckpointStore.clear_self _ _⟩
  · rw [if_neg hw]
    set out := streamLoop cfg.batch_size cfg.checkpoint_dir doc.path pages pages.length
      noIntr (pages.length - ck.processed_pages) ck.processed_pages 0 [] [] store []
      with hout
    have hres : out.results
        = freshResults pages ck.processed_pages (pages.length - ck.processed_pages) := by
      rw [hout, streamLoop_noIntr]
      simp
    exact ⟨out.store.clear (getCheckpointPath cfg.checkpoint_dir doc.path), out.saved,
      by simp [hres], CheckpointStore.clear_self _ _⟩

/-- With the flag set at every poll, the streaming loop yields nothing new,
saves nothing and leaves the store alone (the generator's own check stops
the stream before the body runs). -/
theorem streamLoop_intrSet (B : Nat) (dir : String) (path : PdfPath)
    (pages : List PageContent) (total : Nat) (intr : Nat → Bool)
    (hintr : ∀ u, intr u = true) (fuel p t : Nat) (res batch : List PageResult)
    (store : CheckpointStore) (saved : List CheckpointState) :
    (streamLoop B dir path pages total intr fuel p t res batch store saved).results
        = res ++ batch
      ∧ (streamLoop B dir path pages total intr fuel p t res batch store saved).store
        = store
      ∧ (streamLoop B dir path pages total intr fuel p t res batch store saved).saved
        = saved := by
  cases fuel <;> simp [streamLoop, hintr]

/-- Same for the single-process fallback loop. -/
theorem mpLoop_intrSet (B : Nat) (dir : String) (path : PdfPath)
    (pages : List PageContent) (total : Nat) (intr : Nat → Bool)
    (hintr : ∀ u, intr u = true) (fuel p t : Nat) (res : List PageResult)
    (store : CheckpointStore) (saved : List CheckpointState) :
    (mpLoop B dir path pages total intr fuel p t res store saved).results = res
      ∧ (mpLoop B dir path pages total intr fuel p t res store saved).store = store
      ∧ (mpLoop B dir path pages total intr fuel p t res store saved).saved = saved := by
  cases fuel <;> simp [mpLoop, hintr]

/-- A run entered with the flag already set, with nothing to resume: the
summary is empty, `completed = false`, no save happens and the store is
returned untouched. -/
theorem processPdf_intrSet_fresh (cfg : ProcessorConfig) (doc : Document)
    (pages : List PageContent) (store : CheckpointStore) (intr : Nat → Bool)
    (hdisk : doc.onDisk = true) (hopen : doc.openResult = Except.ok pages)
    (hstate : (if cfg.resume && !cfg.force then
        loadCheckpoint cfg.checkpoint_dir store doc.path else none) = none)
    (hintr : ∀ u, intr u = true) :
    processPdf cfg doc intr store = RunResult.ok
      { metadata := [("pdf_path", doc.path.parent ++ "/" ++ doc.path.name),
                     ("pdf_name", doc.path.name)],
        total_pages := pages.length,
        processed_pages := 0,
        results := [],
        completed := false }
      store [] := by
  unfold processPdf
  rw [hdisk, hopen, hstate]
  simp only [Bool.not_true, Bool.false_eq_true, if_false]
  by_cases hw : 1 < cfg.workers
  · rw [if_pos hw]
    obtain ⟨h1, h2, h3⟩ := mpLoop_intrSet cfg.batch_size cfg.checkpoint_dir doc.path
      pages pages.length intr hintr pages.length 0 0 [] store []
    simp [h1, h2, h3, hintr]
  · rw [if_neg hw]
    obtain ⟨h1, h2, h3⟩ := streamLoop_intrSet cfg.batch_size cfg.checkpoint_dir doc.path
      pages pages.length intr hintr pages.length 0 0 [] [] store []
    simp [h1, h2, h3, hintr]

/-- A run entered with the flag already set, resuming from a checkpoint:
the summary carries exactly the checkpoint's results (no new page is
processed), `completed = false`, no save happens and the store is
returned untouched. -/
theorem processPdf_intrSet_resumed (cfg : ProcessorConfig) (doc : Document)
    (pages : List PageContent) (store : CheckpointStore) (intr : Nat → Bool)
    (ck : CheckpointState)
    (hdisk : doc.onDisk = true) (hopen : doc.openResult = Except.ok pages)
    (hstate : (if cfg.resume && !cfg.force then
        loadCheckpoint cfg.checkpoint_dir store doc.path else none) = some ck)
    (hintr : ∀ u, intr u = true) :
    processPdf cfg doc intr store = RunResult.ok
      { metadata := ck.metadata,
        total_pages := pages.length,
        processed_pages := ck.results.length,
        results := ck.results,
        completed := false }
      store [] := by
  unfold processPdf
  rw [hdisk, hopen, hstate]
  simp only [Bool.not_true, Bool.false_eq_true, if_false]
  by_cases hw : 1 < cfg.workers
  · rw [if_pos hw]
    obtain ⟨h1, h2, h3⟩ := mpLoop_intrSet cfg.batch_size cfg.checkpoint_dir doc.path
      pages pages.length intr hintr (pages.length - ck.processed_pages)
      ck.processed_pages 0 [] store []
    simp [h1, h2, h3, hintr]
  · rw [if_neg hw]
    obtain ⟨h1, h2, h3⟩ := streamLoop_intrSet cfg.batch_size cfg.checkpoint_dir doc.path
      pages pages.length intr hintr (pages.length - ck.processed_pages)
      ck.processed_pages 0 [] [] store []
    simp [h1, h2, h3, hintr]

/-- Two runs whose configurations agree on everything the loop reads
(batch size, checkpoint dir, resume, force) produce the same raised error
or the same summary, whatever their worker counts: the `workers > 1` branch
is the same sequential path. -/
theorem processPdf_outcome_workers (cfg1 cfg2 : ProcessorConfig) (doc : Document)
    (intr : Nat → Bool) (store : CheckpointStore)
    (hbs : cfg1.batch_size = cfg2.batch_size)
    (hcd : cfg1.checkpoint_dir = cfg2.checkpoint_dir)
    (hr : cfg1.resume = cfg2.resume) (hf : cfg1.force = cfg2.force) :
    (processPdf cfg1 doc intr store).outcome
      = (processPdf cfg2 doc intr store).outcome := by
  unfold processPdf
  rw [← hbs, ← hcd, ← hr, ← hf]
  cases hd : doc.onDisk
  · simp [RunResult.outcome]
  · simp only [Bool.not_true, Bool.false_eq_true, if_false]
    cases ho : doc.openResult with
    | error e => simp [RunResult.outcome]
    | ok pages =>
        cases hst : (if cfg1.resume && !cfg1.force then
            loadCheckpoint cfg1.checkpoint_dir store doc.path else none) with
        | none =>
            dsimp only
            by_cases hw1 : 1 < cfg1.workers
            · by_cases hw2 : 1 < cfg2.workers
              · rw [if_pos hw1, if_pos hw2]
              · rw [if_pos hw1, if_neg hw2]
                obtain ⟨h1, h2⟩ := mpLoop_streamLoop cfg1.batch_size cfg1.checkpoint_dir
                  doc.path pages pages.length intr (pages.length - 0) 0 0 [] [] []
                  store store [] [] rfl
                rw [h1, h2]
                rfl
            · by_cases hw2 : 1 < cfg2.workers
              · rw [if_neg hw1, if_pos hw2]
                obtain ⟨h1, h2⟩ := mpLoop_streamLoop cfg1.batch_size cfg1.checkpoint_dir
                  doc.path pages pages.length intr (pages.length - 0) 0 0 [] [] []
                  store store [] [] rfl
                rw [h1, h2]
                rfl
              · rw [if_neg hw1, if_neg hw2]
        | some ck =>
            dsimp only
            by_cases hw1 : 1 < cfg1.workers
            · by_cases hw2 : 1 < cfg2.workers
              · rw [if_pos hw1, if_pos hw2]
              · rw [if_pos hw1, if_neg hw2]
                obtain ⟨h1, h2⟩ := mpLoop_streamLoop cfg1.batch_size cfg1.checkpoint_dir
                  doc.path pages pages.length intr (pages.length - ck.processed_pages)
                  ck.processed_pages 0 [] [] [] store store [] [] rfl
                rw [h1, h2]
                rfl
            · by_cases hw2 : 1 < cfg2.workers
              · rw [if_neg hw1, if_pos hw2]
                obtain ⟨h1, h2⟩ := mpLoop_streamLoop cfg1.batch_size cfg1.checkpoint_dir
                  doc.path pages pages.length intr (pages.length - ck.processed_pages)
                  ck.processed_pages 0 [] [] [] store store [] [] rfl
                rw [h1, h2]
                rfl
              · rw [if_neg hw1, if_neg hw2]

/-! ## The claims -/

/-- Claim C1: for every document with N pages and every batch size B ≥ 1, a
run started fresh (no checkpoint on file, no interrupt ever signalled)
returns a summary with `completed = true`,
`processed_pages = total_pages = N`, `len(results) = N`, and
`results[i].page_number = i + 1` for every `i < N`. -/
theorem c1_uninterrupted_fresh_run (cfg : ProcessorConfig) (doc : Document)
    (pages : List PageContent) (store : CheckpointStore)
    (_hB : 1 ≤ cfg.batch_size)
    (hdisk : doc.onDisk = true) (hopen : doc.openResult = Except.ok pages)
    (hfresh : loadCheckpoint cfg.checkpoint_dir store doc.path = none) :
    ∃ (s : RunSummary) (store2 : CheckpointStore) (saved : List CheckpointState),
      processPdf cfg doc noIntr store = RunResult.ok s store2 saved ∧
      s.completed = true ∧ s.total_pages = pages.length ∧
      s.processed_pages = pages.length ∧ s.results.length = pages.length ∧
      ∀ (i : Nat) (hi : i < s.results.length),
        (s.results.get ⟨i, hi⟩).page_number = i + 1 := by
  have hstate : (if cfg.resume && !cfg.force then
      loadCheckpoint cfg.checkpoint_dir store doc.path else none) = none := by
    cases cfg.resume && !cfg.force <;> simp [hfresh]
  obtain ⟨store2, saved, heq, -⟩ :=
    processPdf_noIntr_fresh cfg doc pages store hdisk hopen hstate
  refine ⟨_, store2, saved, heq, rfl, rfl, ?_, ?_, ?_⟩
  · simp [freshResults_length]
  · simp [freshResults_length]
  · intro i hi
    rw [freshResults_getElem, processPage_page_number]
    omega

theorem c1_witness :
    1 ≤ cfgW1.batch_size ∧ docW1.onDisk = true ∧
    loadCheckpoint cfgW1.checkpoint_dir emptyStore docW1.path = none ∧
    ∃ (s : RunSummary) (store2 : CheckpointStore) (saved : List CheckpointState),
      processPdf cfgW1 docW1 noIntr emptyStore = RunResult.ok s store2 saved ∧
      s.completed = true ∧ s.total_pages = 3 ∧
      s.processed_pages = 3 ∧ s.results.length = 3 ∧
      ∀ (i : Nat) (hi : i < s.results.length),
        (s.results.get ⟨i, hi⟩).page_number = i + 1 := by
  refine ⟨by decide, rfl, rfl, ?_⟩
  exact c1_uninterrupted_fresh_run cfgW1 docW1
    [PageContent.ok (some "alpha"), PageContent.ok none, PageContent.exn "boom"]
    emptyStore (by decide) rfl rfl rfl

/-- Claim C2, failing input: a three-page document, batch size 10, fresh
store, signal arriving while page 0 is being processed, so the flag is
first observed by `_stream_pages`' own check (poll 2).  The run returns
`completed = false` with one processed page, yet no `CheckpointState` was
ever passed to `_save_checkpoint` and the checkpoint file is absent —
against the claim that a checkpoint is persisted and present/loadable
after every `completed = false` run. -/
theorem c2_interrupted_run_without_checkpoint :
    (processPdf cfgC2 docC2 (intrFrom 2) emptyStore).summaryD.completed = false ∧
    (processPdf cfgC2 docC2 (intrFrom 2) emptyStore).summaryD.results.length = 1 ∧
    (processPdf cfgC2 docC2 (intrFrom 2) emptyStore).savedD = [] ∧
    (processPdf cfgC2 docC2 (intrFrom 2) emptyStore).storeD
      (getCheckpointPath cfgC2.checkpoint_dir docC2.path) = none := by
  decide

/-- Claim C3, failing input: resuming a thirty-page document from a seeded
checkpoint with `processed_pages = 15` (15 results), batch size 10 and no
interrupt.  The single checkpoint saved during the run (the batch boundary
after page 24) has `processed_pages = 25` but only 10 results —
`_process_streaming` restarts its local `results` list at `[]` and drops
the resumed prefix, violating `len(results) == processed_pages`. -/
theorem c3_resumed_checkpoint_drops_results :
    (processPdf cfgC3 docC3 noIntr storeC3).savedD.length = 1 ∧
    ((processPdf cfgC3 docC3 noIntr storeC3).savedD.getD 0 default).processed_pages = 25 ∧
    ((processPdf cfgC3 docC3 noIntr storeC3).savedD.getD 0 default).results.length = 10 := by
  decide

/-- Claim C4: a 30-page document, batch size 10, a pre-seeded checkpoint
with `processed_pages = 15` and 15 stored results; a run with
`resume = true`, `force = false` and no interrupt returns
`completed = true`, `processed_pages = 30`, 30 results, and the first 15
results are the checkpoint's, unchanged. -/
theorem c4_resume_correctness (cfg : ProcessorConfig) (doc : Document)
    (pages : List PageContent) (store : CheckpointStore) (ck : CheckpointState)
    (hdisk : doc.onDisk = true) (hopen : doc.openResult = Except.ok pages)
    (hresume : cfg.resume = true) (hforce : cfg.force = false)
    (_hB : cfg.batch_size = 10) (hlen : pages.length = 30)
    (hck : loadCheckpoint cfg.checkpoint_dir store doc.path = some ck)
    (hp : ck.processed_pages = 15) (hr : ck.results.length = 15) :
    ∃ (s : RunSummary) (store2 : CheckpointStore) (saved : List CheckpointState),
      processPdf cfg doc noIntr store = RunResult.ok s store2 saved ∧
      s.completed = true ∧ s.total_pages = 30 ∧ s.processed_pages = 30 ∧
      s.results.length = 30 ∧ s.results.take 15 = ck.results := by
  have hstate : (if cfg.resume && !cfg.force then
      loadCheckpoint cfg.checkpoint_dir store doc.path else none) = some ck := by
    simp [hresume, hforce, hck]
  obtain ⟨store2, saved, heq, -⟩ :=
    processPdf_noIntr_resumed cfg doc pages store ck hdisk hopen hstate
  refine ⟨_, store2, saved, heq, rfl, hlen, ?_, ?_, ?_⟩
  · simp [freshResults_length, hlen, hp, hr]
  · simp [freshResults_length, hlen, hp, hr]
  · exact List.take_left' hr

theorem c4_witness :
    docW4.onDisk = true ∧ cfgW4.resume = true ∧ cfgW4.force = false ∧
    cfgW4.batch_size = 10 ∧
    loadCheckpoint cfgW4.checkpoint_dir storeW4 docW4.path = some ckW4 ∧
    ckW4.processed_pages = 15 ∧ ckW4.results.length = 15 ∧
    ∃ (s : RunSummary) (store2 : CheckpointStore) (saved : List CheckpointState),
      processPdf cfgW4 docW4 noIntr storeW4 = RunResult.ok s store2 saved ∧
      s.completed = true ∧ s.total_pages = 30 ∧ s.processed_pages = 30 ∧
      s.results.length = 30 ∧ s.results.take 15 = ckW4.results := by
  refine ⟨rfl, rfl, rfl, rfl, by decide, rfl, by decide, ?_⟩
  exact c4_resume_correctness cfgW4 docW4
    (List.replicate 30 (PageContent.ok (some "x"))) storeW4 ckW4
    rfl rfl rfl rfl rfl (by decide) (by decide) rfl (by decide)

/-- Claim C5, counterexample: the checkpoint-location function is not
injective on documents — two distinct documents (same file name under
different directories) map to the same checkpoint file. -/
theorem c5_distinct_documents_collide :
    getCheckpointPath "checkpoints" { parent := "a", name := "doc.pdf" }
      = getCheckpointPath "checkpoints" { parent := "b", name := "doc.pdf" } ∧
    ({ parent := "a", name := "doc.pdf" } : PdfPath)
      ≠ { parent := "b", name := "doc.pdf" } := by
  decide

/-- Claim C5 (amended): `_get_checkpoint_path` is pure and deterministic —
it depends only on the checkpoint directory and the document's file name,
so the same document always maps to the same location — but it is not
injective on document identities: distinct documents can share a location. -/
theorem c5_checkpoint_path_deterministic_not_injective :
    (∀ (dir n p q : String),
        getCheckpointPath dir { parent := p, name := n }
          = getCheckpointPath dir { parent := q, name := n }) ∧
    ∃ p q : PdfPath, p ≠ q ∧
      getCheckpointPath "checkpoints" p = getCheckpointPath "checkpoints" q :=
  ⟨fun _ _ _ _ => rfl,
    ⟨{ parent := "a", name := "doc.pdf" }, { parent := "b", name := "doc.pdf" },
      by decide, rfl⟩⟩

/-- Claim C6: with `force = true` any existing checkpoint is ignored
whatever `resume` says: the run starts at offset 0 with empty results and
every page is freshly reprocessed; nothing of the stale checkpoint
survives into the summary, and the checkpoint file is gone afterwards. -/
theorem c6_force_ignores_checkpoint (cfg : ProcessorConfig) (doc : Document)
    (pages : List PageContent) (store : CheckpointStore)
    (hdisk : doc.onDisk = true) (hopen : doc.openResult = Except.ok pages)
    (hforce : cfg.force = true) :
    ∃ (s : RunSummary) (store2 : CheckpointStore) (saved : List CheckpointState),
      processPdf cfg doc noIntr store = RunResult.ok s store2 saved ∧
      s.completed = true ∧ s.results = freshResults pages 0 pages.length ∧
      s.processed_pages = pages.length ∧
      store2 (getCheckpointPath cfg.checkpoint_dir doc.path) = none := by
  have hstate : (if cfg.resume && !cfg.force then
      loadCheckpoint cfg.checkpoint_dir store doc.path else none) = none := by
    simp [hforce]
  obtain ⟨store2, saved, heq, hkey⟩ :=
    processPdf_noIntr_fresh cfg doc pages store hdisk hopen hstate
  exact ⟨_, store2, saved, heq, rfl, rfl, by simp [freshResults_length], hkey⟩

theorem c6_witness :
    docW6.onDisk = true ∧ cfgW6.force = true ∧
    loadCheckpoint cfgW6.checkpoint_dir storeW6 docW6.path = some ckW6 ∧
    ∃ (s : RunSummary) (store2 : CheckpointStore) (saved : List CheckpointState),
      processPdf cfgW6 docW6 noIntr storeW6 = RunResult.ok s store2 saved ∧
      s.completed = true ∧
      s.results = freshResults (List.replicate 30 (PageContent.ok (some "y"))) 0
        (List.replicate 30 (PageContent.ok (some "y"))).length ∧
      s.processed_pages = (List.replicate 30 (PageContent.ok (some "y"))).length ∧
      store2 (getCheckpointPath cfgW6.checkpoint_dir docW6.path) = none := by
  refine ⟨rfl, rfl, by decide, ?_⟩
  exact c6_force_ignores_checkpoint cfgW6 docW6
    (List.replicate 30 (PageContent.ok (some "y"))) storeW6 rfl rfl rfl

/-- Claim C7: a document that cannot be found, or cannot be opened/probed
for its page count, makes the run raise to the caller: no checkpoint is
written, no partial summary is returned, and the checkpoint store is
returned exactly as it was. -/
theorem c7_fatal_open_error (cfg : ProcessorConfig) (doc : Document)
    (intr : Nat → Bool) (store : CheckpointStore) (e : String)
    (h : doc.onDisk = false ∨ doc.openResult = Except.error e) :
    ∃ m, processPdf cfg doc intr store = RunResult.raised m store := by
  by_cases hd : doc.onDisk = true
  · rcases h with h | h
    · rw [h] at hd
      exact absurd hd (by simp)
    · refine ⟨e, ?_⟩
      unfold processPdf
      rw [hd, h]
      rfl
  · simp only [Bool.not_eq_true] at hd
    refine ⟨"PDF file not found: " ++ doc.path.parent ++ "/" ++ doc.path.name, ?_⟩
    unfold processPdf
    rw [hd]
    rfl

theorem c7_witness :
    (docW7.onDisk = false ∨ docW7.openResult = Except.error "not found") ∧
    ∃ m, processPdf cfgC2 docW7 noIntr storeC3 = RunResult.raised m storeC3 :=
  ⟨Or.inl rfl,
    c7_fatal_open_error cfgC2 docW7 noIntr storeC3 "not found" (Or.inl rfl)⟩

/-- Claim C8: a raising page is caught and turned into an error-tagged
result for exactly that page, and the run continues: in a fresh,
uninterrupted run over a 10-page document whose 0-indexed page 6 raises,
the summary has 10 results, `results[6]` is the error record for page 7,
and `completed = true`. -/
theorem c8_page_error_isolated (cfg : ProcessorConfig) (doc : Document)
    (pages : List PageContent) (store : CheckpointStore) (msg : String)
    (hdisk : doc.onDisk = true) (hopen : doc.openResult = Except.ok pages)
    (hfresh : loadCheckpoint cfg.checkpoint_dir store doc.path = none)
    (hlen : pages.length = 10)
    (hpg : pages.getD 6 default = PageContent.exn msg) :
    ∃ (s : RunSummary) (store2 : CheckpointStore) (saved : List CheckpointState),
      processPdf cfg doc noIntr store = RunResult.ok s store2 saved ∧
      s.completed = true ∧ s.results.length = 10 ∧
      s.results.getD 6 default = PageResult.err 7 msg ∧
      (s.results.getD 6 default).hasError = true := by
  have hstate : (if cfg.resume && !cfg.force then
      loadCheckpoint cfg.checkpoint_dir store doc.path else none) = none := by
    cases cfg.resume && !cfg.force <;> simp [hfresh]
  obtain ⟨store2, saved, heq, -⟩ :=
    processPdf_noIntr_fresh cfg doc pages store hdisk hopen hstate
  have h6 : (freshResults pages 0 pages.length).getD 6 default
      = PageResult.err 7 msg := by
    have hlt : 6 < (freshResults pages 0 pages.length).length := by
      simp [freshResults_length, hlen]
    have h66 : (freshResults pages 0 pages.length).get ⟨6, hlt⟩
        = PageResult.err 7 msg := by
      rw [freshResults_getElem]
      simp only [List.getD, List.get?_eq_getElem?] at hpg
      simp [hpg, processPage]
    rw [List.getD_eq_getElem _ _ hlt]
    exact (List.get_eq_getElem _ ⟨6, hlt⟩).symm.trans h66
  refine ⟨_, store2, saved, heq, rfl, by simp [freshResults_length, hlen], h6, ?_⟩
  rw [h6]
  rfl

theorem c8_witness :
    docW8.onDisk = true ∧
    loadCheckpoint cfgW8.checkpoint_dir emptyStore docW8.path = none ∧
    pagesW8.length = 10 ∧ pagesW8.getD 6 default = PageContent.exn "bad page" ∧
    ∃ (s : RunSummary) (store2 : CheckpointStore) (saved : List CheckpointState),
      processPdf cfgW8 docW8 noIntr emptyStore = RunResult.ok s store2 saved ∧
      s.completed = true ∧ s.results.length = 10 ∧
      s.results.getD 6 default = PageResult.err 7 "bad page" ∧
      (s.results.getD 6 default).hasError = true := by
  refine ⟨rfl, rfl, by decide, by decide, ?_⟩
  exact c8_page_error_isolated cfgW8 docW8 pagesW8 emptyStore "bad page"
    rfl rfl rfl (by decide) (by decide)

/-- Claim C9: the worker count selects no parallel path — a run configured
with any `workers` value raises the same error or returns the same summary
(`completed`, `total_pages`, `processed_pages`, `results`, `metadata`) as
the same run with `workers = 1`, for every document, store and interrupt
schedule. -/
theorem c9_worker_count_single_path (cfg : ProcessorConfig) (w : Nat)
    (doc : Document) (intr : Nat → Bool) (store : CheckpointStore) :
    (processPdf { cfg with workers := w } doc intr store).outcome
      = (processPdf { cfg with workers := 1 } doc intr store).outcome :=
  processPdf_outcome_workers _ _ doc intr store rfl rfl rfl rfl

/-- Claim C10: the interrupt flag is sticky — set by the first signal and
never cleared — so any run on a processor whose flag is already set (the
schedule reads true at every poll) returns `completed = false`, saves
nothing, leaves the checkpoint store untouched, and processes zero new
pages: its results are exactly the resumed checkpoint's results, or empty. -/
theorem c10_sticky_flag_blocks_later_runs (cfg : ProcessorConfig) (doc : Document)
    (pages : List PageContent) (store : CheckpointStore) (intr : Nat → Bool)
    (hdisk : doc.onDisk = true) (hopen : doc.openResult = Except.ok pages)
    (hintr : ∀ u, intr u = true) :
    (processPdf cfg doc intr store).summaryD.completed = false ∧
    (processPdf cfg doc intr store).savedD = [] ∧
    (processPdf cfg doc intr store).storeD = store ∧
    ((processPdf cfg doc intr store).summaryD.results = [] ∨
      ∃ ck, loadCheckpoint cfg.checkpoint_dir store doc.path = some ck ∧
        (processPdf cfg doc intr store).summaryD.results = ck.results) := by
  cases hst : (if cfg.resume && !cfg.force then
      loadCheckpoint cfg.checkpoint_dir store doc.path else none) with
  | none =>
      rw [processPdf_intrSet_fresh cfg doc pages store intr hdisk hopen hst hintr]
      exact ⟨rfl, rfl, rfl, Or.inl rfl⟩
  | some ck =>
      rw [processPdf_intrSet_resumed cfg doc pages store intr ck hdisk hopen hst hintr]
      refine ⟨rfl, rfl, rfl, Or.inr ⟨ck, ?_, rfl⟩⟩
      by_cases hc : (cfg.resume && !cfg.force) = true
      · rw [if_pos hc] at hst
        exact hst
      · rw [if_neg hc] at hst
        exact absurd hst (by simp)

theorem c10_witness :
    docW10.onDisk = true ∧
    (processPdf cfgW10 docW10 (fun _ => true) emptyStore).summaryD.completed = false ∧
    (processPdf cfgW10 docW10 (fun _ => true) emptyStore).savedD = [] ∧
    (processPdf cfgW10 docW10 (fun _ => true) emptyStore).storeD = emptyStore ∧
    ((processPdf cfgW10 docW10 (fun _ => true) emptyStore).summaryD.results = [] ∨
      ∃ ck, loadCheckpoint cfgW10.checkpoint_dir emptyStore docW10.path = some ck ∧
        (processPdf cfgW10 docW10 (fun _ => true) emptyStore).summaryD.results
          = ck.results) := by
  refine ⟨rfl, ?_⟩
  exact c10_sticky_flag_blocks_later_runs cfgW10 docW10
    [PageContent.ok (some "a"), PageContent.ok (some "b")] emptyStore
    (fun _ => true) rfl rfl (fun _ => rfl)

end PDFScanner
